import Mathlib

/-!
Shallow embedding of `astroNN/models/NeuralNetMaster.py` (the `NeuralNetMaster`
base class) and proofs about its behaviour.

Modelling conventions:
* numpy arrays are modelled by `NDArr`: a shape (list of dimension sizes)
  together with a total valuation of multi-indices by exact rationals.  The
  rationals stand for the floating-point entries; all arithmetic is exact.
* The external deep-learning runtime (keras / tensorflow) is modelled by
  oracle parameters: `sessGrad` stands for one gradient evaluation through
  `tf.gradients` + `get_session().run`, `elapsed` for `time.time()` readings,
  and the model's reported input shape for `get_layer("input").input_shape`.
* Fallible Python code returns `Except`; a raised exception is an `error`
  value carrying the exception class.
* The file system used by `save` is a pair of total maps: a set of existing
  directories and a map from paths to file contents (lists of written lines).
-/

set_option autoImplicit false

/-- A numpy `ndarray`: a shape together with a total valuation of
multi-indices.  Entry values are exact rationals standing for the array's
floating-point contents. -/
structure NDArr where
  shape : List Nat
  get : List Nat → ℚ

/-- `ndarray.ndim`: the rank of the array. -/
def NDArr.ndim (a : NDArr) : Nat := a.shape.length

/-- `np.atleast_3d`: a 0-d array becomes shape `(1,1,1)`, a 1-d array `(n,)`
becomes `(1,n,1)`, a 2-d array `(m,n)` becomes `(m,n,1)`, and arrays of rank
three or more are returned unchanged. -/
def atleast3d (a : NDArr) : NDArr :=
  match a.shape with
  | [] => ⟨[1, 1, 1], fun _ => a.get []⟩
  | [n] => ⟨[1, n, 1], fun idx => a.get [idx.getD 1 0]⟩
  | [n1, n2] => ⟨[n1, n2, 1], fun idx => a.get [idx.getD 0 0, idx.getD 1 0]⟩
  | _ => a

/-- Python slicing `a[i:i+1]`: the leading axis is restricted to the single
row `i` (so the result has leading dimension 1 and `result[o, rest] =
a[i + o, rest]`). -/
def sliceRow (a : NDArr) (i : Nat) : NDArr :=
  ⟨1 :: a.shape.tail, fun idx => a.get ((i + idx.headD 0) :: idx.tail)⟩

/-- `a[:, :, :, np.newaxis]` on a 3-d array (and generally appending a
trailing axis of size 1). -/
def newaxisLast (a : NDArr) : NDArr :=
  ⟨a.shape ++ [1], fun idx => a.get (idx.take a.shape.length)⟩

/-- The value stored in `self.input_shape` / `self.labels_shape`: the Python
code stores either a plain integer or a tuple of dimension sizes. -/
inductive ShapeVal where
  | sInt (n : Nat)
  | sTup (dims : List Nat)
deriving DecidableEq

/-- The bookkeeping state of a `NeuralNetMaster` object: the attributes set in
`__init__` that the code under verification reads or writes.  `keras` /
`tensorflow` objects are represented by the data the code extracts from them:
`input_mean_norm` / `input_std_norm` are the normalization statistics (as
index-valuations, which also absorbs numpy broadcasting of scalar or
per-feature statistics), and `input_shape_expectation` is the shape tuple
reported by `get_layer("input").input_shape` on `keras_model_predict`
(falling back to `keras_model`); keras shape tuples contain `None` for free
dimensions, hence `Option Nat` entries. -/
structure NeuralNetMaster where
  name : Option String
  model_type : Option String
  model_identifier : Option String
  python_info : String
  astronn_ver : String
  keras_ver : String
  tf_ver : String
  fallback_cpu : Bool
  limit_gpu_mem : Bool
  currentdir : String
  folder_name : Option String
  fullfilepath : Option String
  batch_size : Nat
  optimizer : Option String
  max_epochs : Option Nat
  lr : Option ℚ
  val_size : Option ℚ
  val_num : Option Int
  num_train : Option Int
  input_shape : Option ShapeVal
  labels_shape : Option ShapeVal
  input_mean_norm : List Nat → ℚ
  input_std_norm : List Nat → ℚ
  input_shape_expectation : List (Option Nat)
  virtual_cvslogger : Bool

/-- Python `int()` applied to a float value: truncation toward zero. -/
def pyInt (q : ℚ) : Int := if 0 ≤ q then ⌊q⌋ else ⌈q⌉

/-- Exceptions that `pre_training_checklist_master` can raise: reading
`input_data.shape[0]` on a 0-d array raises `IndexError`. -/
inductive PreErr where
  | indexError
deriving DecidableEq

/-- Shallow embedding of `NeuralNetMaster.pre_training_checklist_master`
(lines 112-136).  `self.val_size` is replaced by `0` when it is `None`;
`val_num = int(input_data.shape[0] * val_size)` and
`num_train = input_data.shape[0] - val_num`; the shape-inference fields are
set according to the ranks of `input_data` and `labels`, and left unchanged
for ranks without a branch.  `cpu_gpu_check` only configures the external
GPU runtime and the final `print` only writes to the console; neither touches
the modelled state, so they are omitted.  A 0-d `input_data` makes
`input_data.shape[0]` raise `IndexError` (the state mutations made before
that point are not observable through the `Except` result). -/
def NeuralNetMaster.pre_training_checklist_master (m : NeuralNetMaster)
    (input_data labels : NDArr) : Except PreErr NeuralNetMaster :=
  let vs : ℚ := m.val_size.getD 0
  if input_data.shape = [] then .error .indexError
  else
    let n0 : Nat := input_data.shape.headD 0
    let val_num : Int := pyInt ((n0 : ℚ) * vs)
    let num_train : Int := (n0 : Int) - val_num
    let ishape : Option ShapeVal :=
      if input_data.ndim = 2 then
        some (.sTup [input_data.shape.getD 1 0, 1])
      else if input_data.ndim = 3 then
        some (.sTup [input_data.shape.getD 1 0, input_data.shape.getD 2 0, 1])
      else if input_data.ndim = 4 then
        some (.sTup [input_data.shape.getD 1 0, input_data.shape.getD 2 0,
                     input_data.shape.getD 3 0])
      else m.input_shape
    let lshape : Option ShapeVal :=
      if labels.ndim = 1 then some (.sInt 1)
      else if labels.ndim = 2 then some (.sInt (labels.shape.getD 1 0))
      else if labels.ndim = 3 then
        some (.sTup [labels.shape.getD 1 0, labels.shape.getD 2 0])
      else if labels.ndim = 4 then
        some (.sTup [labels.shape.getD 1 0, labels.shape.getD 2 0,
                     labels.shape.getD 3 0])
      else m.labels_shape
    .ok { m with val_size := some vs, val_num := some val_num,
                 num_train := some num_train,
                 input_shape := ishape, labels_shape := lshape }

/-- A Python number, as passed to `str.format`: `counter + 1` and
`self.labels_shape` are ints, `time.time() - start_time` is a float. -/
inductive PyNum where
  | pint (n : Int)
  | pfloat (q : ℚ)
deriving DecidableEq

/-- Rendering of a number by `str.format` (the exact digits are irrelevant to
every claim; only success or failure of formatting matters). -/
def pyShowNum : PyNum → String
  | .pint n => toString n
  | .pfloat q => toString q

/-- Attribute lookup on a Python number, as performed by a `{.attr}`
replacement field: numbers expose `real` and `imag` (and methods); a name
such as `"04"` is not an attribute, so `getattr` raises `AttributeError`,
modelled by `none`. -/
def pyNumAttr (v : PyNum) (a : String) : Option PyNum :=
  if a = "real" then some v
  else if a = "imag" then some (.pint 0)
  else none

/-- One piece of a `str.format` template: literal text, an auto-numbered
plain field `{}`, or an auto-numbered field with attribute access `{.a}`. -/
inductive FmtTok where
  | lit (s : String)
  | plain
  | attrField (a : String)

/-- The template `'Completed {} of {} output, {.04} seconds elapsed'` from
lines 236-237 (and 255-256) of `jacobian`.  Note the third replacement field
is `{.04}`, not `{:.04}`: without the colon, `.04` parses as attribute access
`.04` on the third argument, not as a format specification. -/
def progressTokens : List FmtTok :=
  [.lit "Completed ", .plain, .lit " of ", .plain, .lit " output, ",
   .attrField "04", .lit " seconds elapsed"]

/-- Rendering of a single replacement field at auto-numbering position `k`;
`none` models a raised exception (`AttributeError` for a failed attribute
lookup, `IndexError` for a missing argument). -/
def runFmtTok : FmtTok → List PyNum → Nat → Option (String × Nat)
  | .lit s, _, k => some (s, k)
  | .plain, args, k => (args.get? k).map (fun v => (pyShowNum v, k + 1))
  | .attrField a, args, k =>
    match args.get? k with
    | none => none
    | some v => (pyNumAttr v a).map (fun w => (pyShowNum w, k + 1))

/-- `str.format` over a tokenized template with auto-numbered fields. -/
def pyFormat (toks : List FmtTok) (args : List PyNum) : Option String :=
  (toks.foldl
    (fun acc tk =>
      match acc with
      | none => none
      | some (s, k) => (runFmtTok tk args k).map (fun r => (s ++ r.1, r.2)))
    (some ("", 0))).map (fun r => r.1)

/-- Exceptions that `jacobian` can raise: the two explicit `ValueError`s
(missing data, unsupported input-shape expectation) and the
`AttributeError` coming out of the `'{.04}'.format(...)` progress print. -/
inductive JacErr where
  | noData
  | shapeMismatch
  | attributeError
deriving DecidableEq

/-- Whether an exception is a `ValueError` (an invalid-argument error). -/
def JacErr.isValueError : JacErr → Bool
  | .noData => true
  | .shapeMismatch => true
  | .attributeError => false

/-- The progress print at the top of each output-unit iteration:
`print('Completed {} of {} output, {.04} seconds elapsed'.format(counter + 1,
self.labels_shape, time.time() - start_time))`.  The `{.04}` field performs
attribute lookup `04` on the elapsed-time float, which fails. -/
def progressPrint (c lt : Nat) (t : ℚ) : Except JacErr String :=
  match pyFormat progressTokens [.pint (c : Int), .pint (lt : Int), .pfloat t] with
  | some s => .ok s
  | none => .error .attributeError

/-- The jacobian accumulator of the 3-d branch, `np.ones((labels_shape, d,
n))`, as a valuation of its three indices (output unit, feature, example). -/
def Jac3 := Nat → Nat → Nat → ℚ

/-- `jacobian[j, :, i:i+1] = np.asarray(...)[0]`: numpy broadcasts the
gradient array `G` (of shape `(1, d, 1)`, the shape of the fed slice) into
the `(d, 1)` block at output unit `j`, example `i`, so entry `[j, k, i]`
becomes `G[0, k, 0]` for each feature `k < d`. -/
def assignCol3 (d : Nat) (g : NDArr) (j i : Nat) (jac : Jac3) : Jac3 :=
  fun j' k i' => if j' = j ∧ i' = i ∧ k < d then g.get [0, k, 0] else jac j' k i'

/-- The inner loop `for i in range(x_data.shape[0])` of the 3-d branch:
each iteration runs one gradient evaluation through the session and writes
the result into column `i` of output unit `j`. -/
def innerLoop3 (d : Nat) (g : Nat → Nat → NDArr) (j : Nat) : Nat → Jac3 → Jac3
  | 0, jac => jac
  | n + 1, jac => assignCol3 d (g j n) j n (innerLoop3 d g j n jac)

/-- The outer loop `for counter, j in enumerate(range(self.labels_shape))` of
the 3-d branch: each iteration first executes the progress print (which can
raise) and then runs the inner loop for output unit `j`. -/
def outerLoop3 (lt d n : Nat) (g : Nat → Nat → NDArr) (elapsed : Nat → ℚ) :
    Nat → Jac3 → Except JacErr Jac3
  | 0, jac => .ok jac
  | j + 1, jac =>
    match outerLoop3 lt d n g elapsed j jac with
    | .error e => .error e
    | .ok jac1 =>
      match progressPrint (j + 1) lt (elapsed j) with
      | .error e => .error e
      | .ok _ => .ok (innerLoop3 d g j n jac1)

/-- The jacobian accumulator of the 4-d branch, `np.ones((labels_shape,
x_data.shape[0], x_data.shape[2], x_data.shape[1], x_data.shape[3]))`. -/
def Jac5 := Nat → Nat → Nat → Nat → Nat → ℚ

/-- `jacobian[j, i:i+1, :, :, :] = np.asarray(...)[0]` in the 4-d branch:
the gradient block for output unit `j`, example `i` is written positionally
into the `(1, c, b, e)` block (the branch allocates the last three axes in
transposed order relative to the fed slice, so the numpy broadcast only
succeeds when the two middle dimensions agree; the write is modelled
positionally, and no claim depends on these entries). -/
def assignBlk5 (cdim bdim edim : Nat) (g : NDArr) (j i : Nat) (jac : Jac5) : Jac5 :=
  fun j' i' p q r =>
    if j' = j ∧ i' = i ∧ p < cdim ∧ q < bdim ∧ r < edim then g.get [0, p, q, r]
    else jac j' i' p q r

/-- The inner loop `for i in range(x.shape[0])` of the 4-d branch. -/
def innerLoop4 (cdim bdim edim : Nat) (g : Nat → Nat → NDArr) (j : Nat) :
    Nat → Jac5 → Jac5
  | 0, jac => jac
  | n + 1, jac => assignBlk5 cdim bdim edim (g j n) j n (innerLoop4 cdim bdim edim g j n jac)

/-- The outer loop of the 4-d branch, with the same progress print. -/
def outerLoop4 (lt cdim bdim edim n : Nat) (g : Nat → Nat → NDArr)
    (elapsed : Nat → ℚ) : Nat → Jac5 → Except JacErr Jac5
  | 0, jac => .ok jac
  | j + 1, jac =>
    match outerLoop4 lt cdim bdim edim n g elapsed j jac with
    | .error e => .error e
    | .ok jac1 =>
      match progressPrint (j + 1) lt (elapsed j) with
      | .error e => .error e
      | .ok _ => .ok (innerLoop4 cdim bdim edim g j n jac1)

/-- The integer stored in `self.labels_shape`, as consumed by
`np.ones((self.labels_shape, ...))` and `range(self.labels_shape)` (the
shape-inference code stores a plain int for 1-d and 2-d labels; a tuple or
`None` there would make `np.ones` raise a `TypeError`, which is outside the
scope of every claim and modelled as dimension 0). -/
def labelsDimOf : Option ShapeVal → Nat
  | some (.sInt n) => n
  | _ => 0

/-- Shallow embedding of `NeuralNetMaster.jacobian` (lines 197-269).
`sessGrad j x_in` is the external runtime's gradient evaluation
`np.asarray(get_session().run(tf.gradients(output[0, j], input_tens),
feed_dict={input_tens: x_in}))[0]` for output unit `j` and fed slice `x_in`;
`elapsed j` is the `time.time() - start_time` reading of iteration `j`.
The body: a `None` input raises `ValueError`; the input is copied and
normalized (`(x - input_mean_norm) / input_std_norm`), made at least 3-d,
and then dispatched on the length of the model's input-shape expectation
(3-d branch, 4-d branch, or a `ValueError`).  Each branch preallocates an
all-ones array, loops over output units and examples writing gradient
blocks, and takes `np.mean` over the example axis when `mean_output`. -/
def NeuralNetMaster.jacobian (m : NeuralNetMaster)
    (sessGrad : Nat → NDArr → NDArr) (elapsed : Nat → ℚ)
    (x : Option NDArr) (mean_output : Bool) : Except JacErr NDArr :=
  match x with
  | none => .error .noData
  | some xa =>
    let x1 : NDArr :=
      ⟨xa.shape, fun idx => (xa.get idx - m.input_mean_norm idx) / m.input_std_norm idx⟩
    let x_data := atleast3d x1
    let lt := labelsDimOf m.labels_shape
    if m.input_shape_expectation.length = 3 then
      let xd := atleast3d x_data
      let n := xd.shape.getD 0 0
      let d := xd.shape.getD 1 0
      (outerLoop3 lt d n (fun j i => sessGrad j (sliceRow xd i)) elapsed lt
          (fun _ _ _ => 1)).map
        (fun jac =>
          if mean_output then
            ⟨[lt, d], fun idx =>
              ((Finset.range n).sum (fun i => jac (idx.getD 0 0) (idx.getD 1 0) i)) / n⟩
          else
            ⟨[lt, d, n], fun idx => jac (idx.getD 0 0) (idx.getD 1 0) (idx.getD 2 0)⟩)
    else if m.input_shape_expectation.length = 4 then
      let xd := newaxisLast x_data
      let a0 := xd.shape.getD 0 0
      let b1 := xd.shape.getD 1 0
      let c2 := xd.shape.getD 2 0
      let e3 := xd.shape.getD 3 0
      let nloop := xa.shape.getD 0 0
      (outerLoop4 lt c2 b1 e3 nloop (fun j i => sessGrad j (sliceRow xd i)) elapsed lt
          (fun _ _ _ _ _ => 1)).map
        (fun jac =>
          if mean_output then
            ⟨[lt, c2, b1, e3], fun idx =>
              ((Finset.range a0).sum
                (fun i => jac (idx.getD 0 0) i (idx.getD 1 0) (idx.getD 2 0) (idx.getD 3 0))) / a0⟩
          else
            ⟨[lt, a0, c2, b1, e3], fun idx =>
              jac (idx.getD 0 0) (idx.getD 1 0) (idx.getD 2 0) (idx.getD 3 0) (idx.getD 4 0)⟩)
    else .error .shapeMismatch

/-- The map from file paths to file contents (each content is the list of
lines written); `none` means the file does not exist. -/
def FilesMap := String → Option (List String)

/-- The file system visible to `save` and `plot_model`: the set of existing
directories and the files. -/
structure FS where
  dirs : String → Bool
  files : FilesMap

/-- `os.path.join(a, b)` for a directory `a` with no trailing separator and a
relative component `b` (the only form the code builds). -/
def pathJoin (a b : String) : String := a ++ "/" ++ b

/-- `os.makedirs(p)`: the directory now exists. -/
def makedirs (fs : FS) (p : String) : FS :=
  { fs with dirs := fun q => if q = p then true else fs.dirs q }

/-- `if not os.path.exists(p): os.makedirs(p)` — the guarded directory
creation of `save` (lines 152-153). -/
def ensureDir (fs : FS) (p : String) : FS :=
  if fs.dirs p then fs else makedirs fs p

/-- `open(p, 'w')` followed by writes: the file at `p` now holds exactly the
written lines (write mode truncates any previous content). -/
def writeFile (fs : FS) (p : String) (content : List String) : FS :=
  { fs with files := fun q => if q = p then some content else fs.files q }

/-- Python's rendering of an optional string attribute inside
`'...{}...'.format(attr)` (`None` prints as `None`). -/
def pyOptStr : Option String → String
  | none => "None"
  | some s => s

/-- Rendering of a `bool` attribute. -/
def pyBool (b : Bool) : String := if b then "True" else "False"

/-- Rendering of an optional numeric attribute (digits approximate Python's
float repr; all claims are insensitive to the digits). -/
def pyOptNat : Option Nat → String
  | none => "None"
  | some n => toString n

/-- Rendering of an optional integer attribute. -/
def pyOptInt : Option Int → String
  | none => "None"
  | some n => toString n

/-- Rendering of an optional rational attribute. -/
def pyOptQ : Option ℚ → String
  | none => "None"
  | some q => toString q

/-- Rendering of a stored shape value (an int, or a tuple printed in Python's
tuple style). -/
def pyShapeVal : Option ShapeVal → String
  | none => "None"
  | some (.sInt n) => toString n
  | some (.sTup ds) => "(" ++ String.intercalate ", " (ds.map toString) ++ ")"

/-- The lines written into `hyperparameter.txt` by `save` (lines 158-176),
in order, each formatted as `'<label>: {} \n'.format(<attribute>)`. -/
def hyperLines (m : NeuralNetMaster) : List String :=
  ["model: " ++ pyOptStr m.name ++ " \n",
   "model type: " ++ pyOptStr m.model_type ++ " \n",
   "astroNN identifier: " ++ pyOptStr m.model_identifier ++ " \n",
   "python version: " ++ m.python_info ++ " \n",
   "astroNN version: " ++ m.astronn_ver ++ " \n",
   "keras version: " ++ m.keras_ver ++ " \n",
   "tensorflow version: " ++ m.tf_ver ++ " \n",
   "folder name: " ++ pyOptStr m.folder_name ++ " \n",
   "fallback cpu? : " ++ pyBool m.fallback_cpu ++ " \n",
   "astroNN GPU management: " ++ pyBool m.limit_gpu_mem ++ " \n",
   "batch_size: " ++ toString m.batch_size ++ " \n",
   "optimizer: " ++ pyOptStr m.optimizer ++ " \n",
   "max_epochs: " ++ pyOptNat m.max_epochs ++ " \n",
   "learning rate: " ++ pyOptQ m.lr ++ " \n",
   "Validation Size: " ++ pyOptQ m.val_size ++ " \n",
   "training input shape: " ++ pyShapeVal m.input_shape ++ " \n",
   "label shape: " ++ pyShapeVal m.labels_shape ++ " \n",
   "number of training data: " ++ pyOptInt m.num_train ++ " \n",
   "number of validation data: " ++ pyOptInt m.val_num ++ " \n"]

/-- The console warning printed when the external plotting call fails. -/
def plotWarning : String :=
  "Skipped plot_model! graphviz and pydot_ng are required to plot the model architecture"

/-- Shallow embedding of `NeuralNetMaster.plot_model` (lines 187-195).
`render t` models the external `keras.utils.plot_model(self.keras_model,
show_shapes=True, to_file=t)` call: on success it yields the bytes of the
written image (as lines), on failure it raises (graphviz / pydot missing).
The `try/except` catches any exception and reduces it to the console
warning; the second component of the result is the console output. -/
def NeuralNetMaster.plot_model (m : NeuralNetMaster) (fs : FS)
    (render : String → Except String (List String)) : FS × List String :=
  let target := (match m.fullfilepath with
    | some p => p
    | none => "") ++ "model.png"
  match render target with
  | .ok content => (writeFile fs target content, [])
  | .error _ => (fs, [plotWarning])

/-- Lines 144-153 of `save`: folder-name selection and guarded directory
creation.  `runnum` is the name the external `folder_runnum()` helper would
generate (that helper lives outside this file; only its returned string
matters here, and it is only consulted when no name is available).  In the
`else` branch `self.folder_name` is never `None`: either `name` was given or
`folder_name` was already set; the unreachable `none` case leaves the file
system unchanged. -/
def saveFolderStep (m : NeuralNetMaster) (fs : FS) (runnum : String)
    (name : Option String) : NeuralNetMaster × FS :=
  if m.folder_name = none ∧ name = none then
    ({ m with folder_name := some runnum }, fs)
  else
    let m' := match name with
      | some nm => { m with folder_name := some nm }
      | none => m
    match m'.folder_name with
    | some f => (m', ensureDir fs (pathJoin m'.currentdir f))
    | none => (m', fs)

/-- Lines 182-185 of `save`: run the abstract
`post_training_checklist_child` hook (modelled by `childF`, a
subclass-supplied transformation of the files), then
`virtual_cvslogger.savefile(...)` when a virtual logger is attached
(modelled by `loggerF`, guarded by the `is not None` test). -/
def applyHooks (fsx : FS) (virtual : Bool) (childF loggerF : FilesMap → FilesMap) : FS :=
  let fs4 : FS := { fsx with files := childF fsx.files }
  if virtual then { fs4 with files := loggerF fs4.files } else fs4

/-- Lines 155-185 of `save`, after the folder step: write the
`hyperparameter.txt` summary, plot the architecture diagram when
`model_plot`, then run the child-checklist and virtual-logger hooks.  The
second component is the console output. -/
def savePipeline (m2 : NeuralNetMaster) (fs1 : FS) (model_plot : Bool)
    (render : String → Except String (List String))
    (childF loggerF : FilesMap → FilesMap) : FS × List String :=
  let fs2 := writeFile fs1 (pyOptStr m2.fullfilepath ++ "hyperparameter.txt") (hyperLines m2)
  let pl := if model_plot then m2.plot_model fs2 render else (fs2, [])
  (applyHooks pl.1 m2.virtual_cvslogger childF loggerF, pl.2)

/-- Shallow embedding of `NeuralNetMaster.save` (lines 144-185): the folder
step, then `fullfilepath = os.path.join(currentdir, folder_name + '/')`,
then the post-folder pipeline `savePipeline`.  The third component of the
result is the console output. -/
def NeuralNetMaster.save (m : NeuralNetMaster) (fs : FS) (runnum : String)
    (name : Option String) (model_plot : Bool)
    (render : String → Except String (List String))
    (childF loggerF : FilesMap → FilesMap) :
    NeuralNetMaster × FS × List String :=
  let p := saveFolderStep m fs runnum name
  let m2 := { p.1 with
    fullfilepath := some (pathJoin p.1.currentdir (pyOptStr p.1.folder_name ++ "/")) }
  let r := savePipeline m2 p.2 model_plot render childF loggerF
  (m2, r.1, r.2)

/-- The Python heap restricted to the numpy arrays `jacobian` manipulates:
a list of array cells; variables hold cell indices. -/
abbrev Store := List NDArr

/-- Reading a cell (the default is never reached for live references). -/
def storeGet (s : Store) (r : Nat) : NDArr := s.getD r ⟨[], fun _ => 0⟩

/-- `np.array(x)`: allocate a fresh cell holding a copy of cell `r`. -/
def npArrayCopy (s : Store) (r : Nat) : Store × Nat :=
  (s ++ [storeGet s r], s.length)

/-- `a -= mean` (numpy in-place subtraction): cell `r` is overwritten with
its elementwise difference with the broadcast statistics. -/
def storeISub (s : Store) (r : Nat) (mean : List Nat → ℚ) : Store :=
  s.set r ⟨(storeGet s r).shape, fun idx => (storeGet s r).get idx - mean idx⟩

/-- `a /= std` (numpy in-place division). -/
def storeIDiv (s : Store) (r : Nat) (std : List Nat → ℚ) : Store :=
  s.set r ⟨(storeGet s r).shape, fun idx => (storeGet s r).get idx / std idx⟩

/-- `np.atleast_3d(a)`: builds a reshaped result (a view; the source cell is
not written), modelled as a fresh cell. -/
def storeAtleast3d (s : Store) (r : Nat) : Store × Nat :=
  (s ++ [atleast3d (storeGet s r)], s.length)

/-- Lines 215-219 of `jacobian` with the heap explicit: `x_data =
np.array(x)`, `x_data -= self.input_mean_norm`, `x_data /=
self.input_std_norm`, `x_data = np.atleast_3d(x_data)`.  `xr` is the cell
holding the caller's array `x`.  These are the only statements of `jacobian`
that write to any array; the rest of the body only writes into the
freshly-allocated jacobian accumulator. -/
def jacobianNormalizeStore (s : Store) (xr : Nat) (mean std : List Nat → ℚ) :
    Store × Nat :=
  let p1 := npArrayCopy s xr
  let s2 := storeISub p1.1 p1.2 mean
  let s3 := storeIDiv s2 p1.2 std
  storeAtleast3d s3 p1.2

/-- A concrete `NeuralNetMaster` state holding the `__init__` defaults
(placeholder version strings); used by the concrete evaluations below. -/
def baseState : NeuralNetMaster :=
  { name := none
    model_type := none
    model_identifier := none
    python_info := "3.6.3"
    astronn_ver := "0.9.1"
    keras_ver := "2.1.2"
    tf_ver := "1.4.0"
    fallback_cpu := false
    limit_gpu_mem := true
    currentdir := "/home/user"
    folder_name := none
    fullfilepath := none
    batch_size := 64
    optimizer := none
    max_epochs := none
    lr := none
    val_size := none
    val_num := none
    num_train := none
    input_shape := none
    labels_shape := none
    input_mean_norm := fun _ => 0
    input_std_norm := fun _ => 1
    input_shape_expectation := []
    virtual_cvslogger := false }

/-- A concrete all-zero array of the given shape. -/
def zeros (shape : List Nat) : NDArr := ⟨shape, fun _ => 0⟩

/-- A concrete model state ready for a 3-d-expectation `jacobian` call:
one output unit, and the keras input layer reports shape `(None, 1, 1)`. -/
def jacState : NeuralNetMaster :=
  { baseState with labels_shape := some (.sInt 1)
                   input_shape_expectation := [none, some 1, some 1] }

/-- A concrete gradient oracle: every session run returns the constant-7
array of the fed slice's 3-d shape. -/
def constGrad : Nat → NDArr → NDArr := fun _ x => ⟨x.shape, fun _ => 7⟩

/-- A concrete clock: iteration `j` reads `j` seconds elapsed. -/
def tickClock : Nat → ℚ := fun j => j

/-- An empty file system. -/
def emptyFS : FS := ⟨fun _ => false, fun _ => none⟩

/-- A plotting oracle that always fails (graphviz missing). -/
def failRender : String → Except String (List String) :=
  fun _ => .error "graphviz missing"

/-- A plotting oracle that always succeeds with a one-line image stub. -/
def okRender : String → Except String (List String) :=
  fun _ => .ok ["png-bytes"]

/-- Claim C2: calling `jacobian` with no input data (`x` is `None`, its
default) raises `ValueError` (`'Please provide data to calculate the
jacobian'`), for every state of the model object (and any runtime oracles
and `mean_output` flag). -/
theorem jacobian_none_raises_valueerror (m : NeuralNetMaster)
    (sessGrad : Nat → NDArr → NDArr) (elapsed : Nat → ℚ) (mo : Bool) :
    m.jacobian sessGrad elapsed none mo = .error .noData ∧
    JacErr.isValueError .noData = true :=
  ⟨rfl, rfl⟩

/-- Claim C1 (the code at the failing input): for a model whose input-shape
expectation has length 3 and one output unit, `jacobian` on an accepted 2-d
input raises `AttributeError` out of the progress print
`'... {.04} seconds elapsed'.format(...)` on the first loop iteration, before
any gradient is accumulated — it does not return the jacobian array the
claim (and the docstring) describe. -/
theorem jacobian_progress_print_crash :
    jacState.input_shape_expectation.length = 3 ∧
    labelsDimOf jacState.labels_shape = 1 ∧
    (jacState.jacobian constGrad tickClock (some (zeros [1, 1])) false).map
        NDArr.shape = Except.error JacErr.attributeError := by
  exact ⟨rfl, rfl, rfl⟩

/-- A state whose validation fraction is negative (Python allows assigning
any float to `val_size`). -/
def negValState : NeuralNetMaster := { baseState with val_size := some (-1/2) }

/-- A state with the usual positive validation fraction. -/
def quarterValState : NeuralNetMaster := { baseState with val_size := some (1/4) }

/-- Claim C4, counterexample: with `val_size = -0.5` and one sample,
`val_num = int(1 * -0.5) = 0` (Python `int()` truncates toward zero), but
`floor(1 * -0.5) = -1`, so `val_num` is not `floor(n * val_size)` as the
claim states for every `val_size`. -/
theorem pre_training_floor_counterexample :
    (negValState.pre_training_checklist_master (zeros [1]) (zeros [1])).map
        (fun s => s.val_num) = Except.ok (some 0) ∧
    (⌊((1 : Nat) : ℚ) * ((-1 : ℚ)/2)⌋ : Int) ≠ 0 := by
  constructor
  · simp only [NeuralNetMaster.pre_training_checklist_master, negValState, baseState, zeros,
      NDArr.ndim]
    norm_num [pyInt, Except.map]
  · norm_num

/-- Claim C4 (amended): after `pre_training_checklist_master` on input data
with leading dimension `n` (rank at least 1), `val_num + num_train = n`
always holds, and `val_num` is Python's `int(n * val_size)` — the truncation
toward zero of `n * val_size`, with `val_size` treated as 0 when `None` —
which coincides with `floor(n * val_size)` whenever `val_size` is
nonnegative (but not for negative `val_size`). -/
theorem pre_training_split_counts (m : NeuralNetMaster) (input_data labels : NDArr)
    (n0 : Nat) (rest : List Nat) (h : input_data.shape = n0 :: rest) :
    (m.pre_training_checklist_master input_data labels).map (fun s => s.val_num)
        = Except.ok (some (pyInt ((n0 : ℚ) * m.val_size.getD 0))) ∧
    (m.pre_training_checklist_master input_data labels).map (fun s => s.num_train)
        = Except.ok (some ((n0 : Int) - pyInt ((n0 : ℚ) * m.val_size.getD 0))) ∧
    pyInt ((n0 : ℚ) * m.val_size.getD 0)
        + ((n0 : Int) - pyInt ((n0 : ℚ) * m.val_size.getD 0)) = (n0 : Int) ∧
    (0 ≤ m.val_size.getD 0 →
      pyInt ((n0 : ℚ) * m.val_size.getD 0) = ⌊(n0 : ℚ) * m.val_size.getD 0⌋) := by
  have hne : input_data.shape ≠ [] := by simp [h]
  refine ⟨?_, ?_, by ring, ?_⟩
  · simp only [NeuralNetMaster.pre_training_checklist_master, h, List.headD_cons,
      Except.map, if_neg (List.cons_ne_nil n0 rest)]
  · simp only [NeuralNetMaster.pre_training_checklist_master, h, List.headD_cons,
      Except.map, if_neg (List.cons_ne_nil n0 rest)]
  · intro hvs
    unfold pyInt
    rw [if_pos (mul_nonneg (Nat.cast_nonneg n0) hvs)]

/-- Witness for `pre_training_split_counts`: 10 samples, `val_size = 1/4`. -/
theorem pre_training_split_counts_witness :
    (zeros [10, 2]).shape = 10 :: [2] ∧
    ((quarterValState.pre_training_checklist_master (zeros [10, 2]) (zeros [10])).map
        (fun s => s.val_num)
        = Except.ok (some (pyInt (((10 : Nat) : ℚ) * quarterValState.val_size.getD 0))) ∧
     (quarterValState.pre_training_checklist_master (zeros [10, 2]) (zeros [10])).map
        (fun s => s.num_train)
        = Except.ok (some (((10 : Nat) : Int)
            - pyInt (((10 : Nat) : ℚ) * quarterValState.val_size.getD 0))) ∧
     pyInt (((10 : Nat) : ℚ) * quarterValState.val_size.getD 0)
        + (((10 : Nat) : Int) - pyInt (((10 : Nat) : ℚ) * quarterValState.val_size.getD 0))
        = ((10 : Nat) : Int) ∧
     (0 ≤ quarterValState.val_size.getD 0 →
       pyInt (((10 : Nat) : ℚ) * quarterValState.val_size.getD 0)
         = ⌊((10 : Nat) : ℚ) * quarterValState.val_size.getD 0⌋)) :=
  ⟨rfl, pre_training_split_counts quarterValState (zeros [10, 2]) (zeros [10]) 10 [2] rfl⟩

/-- Claim C10, counterexample: on a 0-d input array the method does raise —
`input_data.shape[0]` is an `IndexError` — although rank 0 is outside 2-4
and the claim says no error is raised there. -/
theorem pre_training_zero_dim_raises :
    NDArr.ndim (zeros []) = 0 ∧
    (baseState.pre_training_checklist_master (zeros []) (zeros [1])).map
        (fun s => s.val_num) = Except.error PreErr.indexError :=
  ⟨rfl, rfl⟩

/-- Claim C10 (amended): for input data of rank at least 1, an input rank
outside 2-4 raises no error and leaves `input_shape` unchanged, a labels
rank outside 1-4 leaves `labels_shape` unchanged, and the train/validation
split counts are computed in every such case; a 0-d input, however, raises
`IndexError` at the read of `input_data.shape[0]`. -/
theorem pre_training_unmatched_rank (m : NeuralNetMaster) (input_data labels : NDArr)
    (n0 : Nat) (rest : List Nat) (h : input_data.shape = n0 :: rest) :
    (¬(input_data.ndim = 2 ∨ input_data.ndim = 3 ∨ input_data.ndim = 4) →
      (m.pre_training_checklist_master input_data labels).map (fun s => s.input_shape)
        = Except.ok m.input_shape) ∧
    (¬(labels.ndim = 1 ∨ labels.ndim = 2 ∨ labels.ndim = 3 ∨ labels.ndim = 4) →
      (m.pre_training_checklist_master input_data labels).map (fun s => s.labels_shape)
        = Except.ok m.labels_shape) ∧
    (m.pre_training_checklist_master input_data labels).map (fun s => s.val_num)
        = Except.ok (some (pyInt ((n0 : ℚ) * m.val_size.getD 0))) ∧
    (m.pre_training_checklist_master input_data labels).map (fun s => s.num_train)
        = Except.ok (some ((n0 : Int) - pyInt ((n0 : ℚ) * m.val_size.getD 0))) := by
  have hne : input_data.shape ≠ [] := by simp [h]
  refine ⟨?_, ?_, ?_, ?_⟩
  · intro hd
    push_neg at hd
    obtain ⟨h2, h3, h4⟩ := hd
    simp only [NeuralNetMaster.pre_training_checklist_master, h, List.headD_cons,
      Except.map, if_neg (List.cons_ne_nil n0 rest), if_neg h2, if_neg h3, if_neg h4]
  · intro hd
    push_neg at hd
    obtain ⟨h1, h2, h3, h4⟩ := hd
    simp only [NeuralNetMaster.pre_training_checklist_master, h, List.headD_cons,
      Except.map, if_neg (List.cons_ne_nil n0 rest), if_neg h1, if_neg h2, if_neg h3,
      if_neg h4]
  · simp only [NeuralNetMaster.pre_training_checklist_master, h, List.headD_cons,
      Except.map, if_neg (List.cons_ne_nil n0 rest)]
  · simp only [NeuralNetMaster.pre_training_checklist_master, h, List.headD_cons,
      Except.map, if_neg (List.cons_ne_nil n0 rest)]

/-- Witness for `pre_training_unmatched_rank`: a 1-d input and 0-d labels. -/
theorem pre_training_unmatched_rank_witness :
    (zeros [3]).shape = 3 :: [] ∧
    ((¬((zeros [3]).ndim = 2 ∨ (zeros [3]).ndim = 3 ∨ (zeros [3]).ndim = 4) →
      (baseState.pre_training_checklist_master (zeros [3]) (zeros [])).map
          (fun s => s.input_shape) = Except.ok baseState.input_shape) ∧
     (¬((zeros []).ndim = 1 ∨ (zeros []).ndim = 2 ∨ (zeros []).ndim = 3 ∨
        (zeros []).ndim = 4) →
      (baseState.pre_training_checklist_master (zeros [3]) (zeros [])).map
          (fun s => s.labels_shape) = Except.ok baseState.labels_shape) ∧
     (baseState.pre_training_checklist_master (zeros [3]) (zeros [])).map
          (fun s => s.val_num)
        = Except.ok (some (pyInt (((3 : Nat) : ℚ) * baseState.val_size.getD 0))) ∧
     (baseState.pre_training_checklist_master (zeros [3]) (zeros [])).map
          (fun s => s.num_train)
        = Except.ok (some (((3 : Nat) : Int)
            - pyInt (((3 : Nat) : ℚ) * baseState.val_size.getD 0)))) :=
  ⟨rfl, pre_training_unmatched_rank baseState (zeros [3]) (zeros []) 3 [] rfl⟩

/-- Claim C5: after `pre_training_checklist_master`, the shape-inference
fields match the ranks of the provided arrays: for 2-d input
`input_shape = (d1, 1)`, for 3-d input `(d1, d2, 1)`, for 4-d input
`(d1, d2, d3)`; and for 1-d/2-d/3-d/4-d labels `labels_shape` is `1`, `d1`,
`(d1, d2)`, `(d1, d2, d3)` respectively. -/
theorem pre_training_shape_inference (m : NeuralNetMaster) (input_data labels : NDArr)
    (n0 : Nat) (rest : List Nat) (h : input_data.shape = n0 :: rest) :
    ((input_data.ndim = 2 →
      (m.pre_training_checklist_master input_data labels).map (fun s => s.input_shape)
        = Except.ok (some (.sTup [input_data.shape.getD 1 0, 1]))) ∧
     (input_data.ndim = 3 →
      (m.pre_training_checklist_master input_data labels).map (fun s => s.input_shape)
        = Except.ok (some (.sTup [input_data.shape.getD 1 0, input_data.shape.getD 2 0, 1]))) ∧
     (input_data.ndim = 4 →
      (m.pre_training_checklist_master input_data labels).map (fun s => s.input_shape)
        = Except.ok (some (.sTup [input_data.shape.getD 1 0, input_data.shape.getD 2 0,
            input_data.shape.getD 3 0])))) ∧
    ((labels.ndim = 1 →
      (m.pre_training_checklist_master input_data labels).map (fun s => s.labels_shape)
        = Except.ok (some (.sInt 1))) ∧
     (labels.ndim = 2 →
      (m.pre_training_checklist_master input_data labels).map (fun s => s.labels_shape)
        = Except.ok (some (.sInt (labels.shape.getD 1 0)))) ∧
     (labels.ndim = 3 →
      (m.pre_training_checklist_master input_data labels).map (fun s => s.labels_shape)
        = Except.ok (some (.sTup [labels.shape.getD 1 0, labels.shape.getD 2 0]))) ∧
     (labels.ndim = 4 →
      (m.pre_training_checklist_master input_data labels).map (fun s => s.labels_shape)
        = Except.ok (some (.sTup [labels.shape.getD 1 0, labels.shape.getD 2 0,
            labels.shape.getD 3 0])))) := by
  refine ⟨⟨?_, ?_, ?_⟩, ⟨?_, ?_, ?_, ?_⟩⟩ <;> intro hd <;>
    simp only [NeuralNetMaster.pre_training_checklist_master, h, List.headD_cons,
      Except.map, if_neg (List.cons_ne_nil n0 rest), hd] <;>
    simp [h]

/-- Witness for `pre_training_shape_inference`: a 2-d input of shape (7, 5)
and 2-d labels of shape (7, 4). -/
theorem pre_training_shape_inference_witness :
    (zeros [7, 5]).shape = 7 :: [5] ∧
    ((((zeros [7, 5]).ndim = 2 →
      (baseState.pre_training_checklist_master (zeros [7, 5]) (zeros [7, 4])).map
          (fun s => s.input_shape)
        = Except.ok (some (.sTup [(zeros [7, 5]).shape.getD 1 0, 1]))) ∧
     ((zeros [7, 5]).ndim = 3 →
      (baseState.pre_training_checklist_master (zeros [7, 5]) (zeros [7, 4])).map
          (fun s => s.input_shape)
        = Except.ok (some (.sTup [(zeros [7, 5]).shape.getD 1 0,
            (zeros [7, 5]).shape.getD 2 0, 1]))) ∧
     ((zeros [7, 5]).ndim = 4 →
      (baseState.pre_training_checklist_master (zeros [7, 5]) (zeros [7, 4])).map
          (fun s => s.input_shape)
        = Except.ok (some (.sTup [(zeros [7, 5]).shape.getD 1 0,
            (zeros [7, 5]).shape.getD 2 0, (zeros [7, 5]).shape.getD 3 0])))) ∧
    (((zeros [7, 4]).ndim = 1 →
      (baseState.pre_training_checklist_master (zeros [7, 5]) (zeros [7, 4])).map
          (fun s => s.labels_shape) = Except.ok (some (.sInt 1))) ∧
     ((zeros [7, 4]).ndim = 2 →
      (baseState.pre_training_checklist_master (zeros [7, 5]) (zeros [7, 4])).map
          (fun s => s.labels_shape)
        = Except.ok (some (.sInt ((zeros [7, 4]).shape.getD 1 0)))) ∧
     ((zeros [7, 4]).ndim = 3 →
      (baseState.pre_training_checklist_master (zeros [7, 5]) (zeros [7, 4])).map
          (fun s => s.labels_shape)
        = Except.ok (some (.sTup [(zeros [7, 4]).shape.getD 1 0,
            (zeros [7, 4]).shape.getD 2 0]))) ∧
     ((zeros [7, 4]).ndim = 4 →
      (baseState.pre_training_checklist_master (zeros [7, 5]) (zeros [7, 4])).map
          (fun s => s.labels_shape)
        = Except.ok (some (.sTup [(zeros [7, 4]).shape.getD 1 0,
            (zeros [7, 4]).shape.getD 2 0, (zeros [7, 4]).shape.getD 3 0]))))) :=
  ⟨rfl, pre_training_shape_inference baseState (zeros [7, 5]) (zeros [7, 4]) 7 [5] rfl⟩

/-- The progress print raises `AttributeError` for every argument triple:
the `{.04}` replacement field looks up attribute `04` on the elapsed-time
float, and numbers have no such attribute. -/
theorem progressPrint_attributeError (c lt : Nat) (t : ℚ) :
    progressPrint c lt t = .error .attributeError := rfl

/-- An error coming out of the 3-d-branch loop is the progress print's
`AttributeError`. -/
theorem outerLoop3_error_attr (lt d n : Nat) (g : Nat → Nat → NDArr) (el : Nat → ℚ) :
    ∀ (k : Nat) (jac : Jac3) (e : JacErr),
      outerLoop3 lt d n g el k jac = .error e → e = .attributeError := by
  intro k
  induction k with
  | zero =>
    intro jac e he
    exact absurd (by simpa only [outerLoop3] using he) (by simp)
  | succ j ih =>
    intro jac e he
    simp only [outerLoop3] at he
    cases hrec : outerLoop3 lt d n g el j jac with
    | error e2 =>
      rw [hrec] at he
      simp only [Except.error.injEq] at he
      exact he ▸ ih jac e2 hrec
    | ok jac1 =>
      rw [hrec, progressPrint_attributeError] at he
      simp only [Except.error.injEq] at he
      exact he.symm

/-- An error coming out of the 4-d-branch loop is the progress print's
`AttributeError`. -/
theorem outerLoop4_error_attr (lt cdim bdim edim n : Nat) (g : Nat → Nat → NDArr)
    (el : Nat → ℚ) :
    ∀ (k : Nat) (jac : Jac5) (e : JacErr),
      outerLoop4 lt cdim bdim edim n g el k jac = .error e → e = .attributeError := by
  intro k
  induction k with
  | zero =>
    intro jac e he
    exact absurd (by simpa only [outerLoop4] using he) (by simp)
  | succ j ih =>
    intro jac e he
    simp only [outerLoop4] at he
    cases hrec : outerLoop4 lt cdim bdim edim n g el j jac with
    | error e2 =>
      rw [hrec] at he
      simp only [Except.error.injEq] at he
      exact he ▸ ih jac e2 hrec
    | ok jac1 =>
      rw [hrec, progressPrint_attributeError] at he
      simp only [Except.error.injEq] at he
      exact he.symm

/-- `Except.map` reflects errors. -/
theorem except_map_error {α β γ : Type} (f : α → β) (o : Except γ α) (e : γ)
    (h : o.map f = .error e) : o = .error e := by
  cases o with
  | error e2 => simpa [Except.map] using h
  | ok v => simp [Except.map] at h

/-- Claim C3: for every non-`None` input `x`, `jacobian` raises a
`ValueError` exactly when the model's input-shape expectation is neither
3-d nor 4-d; when the expectation is 3-d or 4-d no `ValueError` is raised
(any failure there is the progress print's `AttributeError`, which is not an
invalid-argument error). -/
theorem jacobian_valueerror_iff (m : NeuralNetMaster) (sessGrad : Nat → NDArr → NDArr)
    (elapsed : Nat → ℚ) (xa : NDArr) (mo : Bool) :
    (∃ e, m.jacobian sessGrad elapsed (some xa) mo = .error e ∧ e.isValueError = true) ↔
    ¬(m.input_shape_expectation.length = 3 ∨ m.input_shape_expectation.length = 4) := by
  by_cases h3 : m.input_shape_expectation.length = 3
  · refine iff_of_false ?_ (by simp [h3])
    rintro ⟨e, he, hv⟩
    simp only [NeuralNetMaster.jacobian, if_pos h3] at he
    have houter := except_map_error _ _ _ he
    have := outerLoop3_error_attr _ _ _ _ _ _ _ _ houter
    rw [this] at hv
    simp [JacErr.isValueError] at hv
  · by_cases h4 : m.input_shape_expectation.length = 4
    · refine iff_of_false ?_ (by simp [h4])
      rintro ⟨e, he, hv⟩
      simp only [NeuralNetMaster.jacobian, if_neg h3, if_pos h4] at he
      have houter := except_map_error _ _ _ he
      have := outerLoop4_error_attr _ _ _ _ _ _ _ _ _ _ houter
      rw [this] at hv
      simp [JacErr.isValueError] at hv
    · refine iff_of_true ⟨.shapeMismatch, ?_, rfl⟩ (not_or.mpr ⟨h3, h4⟩)
      simp only [NeuralNetMaster.jacobian, if_neg h3, if_neg h4]

/-- Reading a live cell is unaffected by appending fresh cells. -/
theorem storeGet_append (s t : Store) (i : Nat) (h : i < s.length) :
    storeGet (s ++ t) i = storeGet s i := by
  unfold storeGet
  rw [List.getD_eq_getElem?_getD, List.getD_eq_getElem?_getD, List.getElem?_append,
    if_pos h]

/-- Reading a cell is unaffected by writing a different cell. -/
theorem storeGet_set_ne (s : Store) (i j : Nat) (v : NDArr) (h : i ≠ j) :
    storeGet (s.set j v) i = storeGet s i := by
  unfold storeGet
  rw [List.getD_eq_getElem?_getD, List.getD_eq_getElem?_getD,
    List.getElem?_set_ne (by omega)]

/-- Claim C9: `jacobian` never mutates its argument `x`: the normalization
`(x - input_mean_norm) / input_std_norm` is applied in place to the fresh
copy made by `np.array(x)`, so after the copy-normalize-reshape prefix (the
only statements of `jacobian` that write into any existing array) the
caller's array cell holds exactly the values it held before the call. -/
theorem jacobian_does_not_mutate_input (s : Store) (xr : Nat)
    (mean std : List Nat → ℚ) (h : xr < s.length) :
    storeGet ((jacobianNormalizeStore s xr mean std).1) xr = storeGet s xr := by
  unfold jacobianNormalizeStore storeAtleast3d storeIDiv storeISub npArrayCopy
  dsimp only
  rw [storeGet_append, storeGet_set_ne, storeGet_set_ne, storeGet_append]
  all_goals
    first
    | omega
    | (simp only [List.length_set, List.length_append, List.length_cons,
        List.length_nil]; omega)

/-- Witness for `jacobian_does_not_mutate_input`: a one-cell heap holding a
1-d array. -/
theorem jacobian_does_not_mutate_input_witness :
    0 < ([⟨[1], fun _ => 3⟩] : Store).length ∧
    storeGet ((jacobianNormalizeStore [⟨[1], fun _ => 3⟩] 0 (fun _ => 1) (fun _ => 2)).1) 0
      = storeGet [⟨[1], fun _ => 3⟩] 0 :=
  ⟨by decide, jacobian_does_not_mutate_input [⟨[1], fun _ => 3⟩] 0 (fun _ => 1)
    (fun _ => 2) (by decide)⟩

/-- After the guarded creation, the directory exists. -/
theorem ensureDir_dirs_self (fs : FS) (p : String) : (ensureDir fs p).dirs p = true := by
  unfold ensureDir makedirs
  split
  · assumption
  · simp

/-- The guarded creation is a no-op on a file system where the directory
already exists. -/
theorem ensureDir_already (fs : FS) (p : String) (h : fs.dirs p = true) :
    ensureDir fs p = fs := by
  unfold ensureDir
  rw [if_pos h]

/-- The child-checklist and virtual-logger hooks only transform files; the
directory set is untouched. -/
theorem applyHooks_dirs (fsx : FS) (v : Bool) (childF loggerF : FilesMap → FilesMap) :
    (applyHooks fsx v childF loggerF).dirs = fsx.dirs := by
  unfold applyHooks
  split <;> rfl

/-- A file present before the hooks run is still present, unchanged, after
them, provided each hook only adds files (never removes or overwrites an
existing one). -/
theorem applyHooks_files (fsx : FS) (v : Bool) (childF loggerF : FilesMap → FilesMap)
    (q : String) (c : List String) (hx : fsx.files q = some c)
    (hc : ∀ (g : FilesMap) (p : String), g p ≠ none → childF g p = g p)
    (hl : ∀ (g : FilesMap) (p : String), g p ≠ none → loggerF g p = g p) :
    (applyHooks fsx v childF loggerF).files q = some c := by
  unfold applyHooks
  dsimp only
  have h1 : childF fsx.files q = some c := by
    rw [hc _ _ (by rw [hx]; exact Option.some_ne_none _), hx]
  split
  · dsimp only
    rw [hl _ _ (by rw [h1]; exact Option.some_ne_none _), h1]
  · exact h1

/-- `plot_model` never touches the directory set (it only writes the image
file, or nothing at all when rendering fails). -/
theorem plot_model_dirs (m : NeuralNetMaster) (fs : FS)
    (render : String → Except String (List String)) :
    (m.plot_model fs render).1.dirs = fs.dirs := by
  unfold NeuralNetMaster.plot_model
  dsimp only
  split <;> rfl

/-- The steps of `save` after the folder step only write files, so the
directory set is exactly what the folder step produced. -/
theorem save_dirs (m : NeuralNetMaster) (fs : FS) (rn : String) (name : Option String)
    (mp : Bool) (render : String → Except String (List String))
    (childF loggerF : FilesMap → FilesMap) :
    (m.save fs rn name mp render childF loggerF).2.1.dirs
      = (saveFolderStep m fs rn name).2.dirs := by
  unfold NeuralNetMaster.save savePipeline
  dsimp only
  rw [applyHooks_dirs]
  split
  · rw [plot_model_dirs]
    rfl
  · rfl

/-- The model-state component of `save` is the folder step's state with
`fullfilepath` recomputed from `currentdir` and `folder_name`. -/
theorem save_state_eq (m : NeuralNetMaster) (fs : FS) (rn : String) (name : Option String)
    (mp : Bool) (render : String → Except String (List String))
    (childF loggerF : FilesMap → FilesMap) :
    (m.save fs rn name mp render childF loggerF).1
      = { (saveFolderStep m fs rn name).1 with
          fullfilepath := some (pathJoin (saveFolderStep m fs rn name).1.currentdir
            (pyOptStr (saveFolderStep m fs rn name).1.folder_name ++ "/")) } := rfl

/-- The folder step with an explicit `name`: `folder_name` becomes that name
and the run directory is created if missing. -/
theorem saveFolderStep_some (m : NeuralNetMaster) (fs : FS) (rn nm : String) :
    saveFolderStep m fs rn (some nm)
      = ({ m with folder_name := some nm },
         ensureDir fs (pathJoin m.currentdir nm)) := by
  unfold saveFolderStep
  rw [if_neg (by simp)]

/-- The folder step with no `name` when `folder_name` is already set: the
state is unchanged and the existing run directory is reused. -/
theorem saveFolderStep_none (m : NeuralNetMaster) (fs : FS) (rn f : String)
    (h : m.folder_name = some f) :
    saveFolderStep m fs rn none = (m, ensureDir fs (pathJoin m.currentdir f)) := by
  unfold saveFolderStep
  rw [if_neg (by simp [h])]
  simp only [h]

/-- Claim C6: folder creation in `save` is idempotent given the same run
name: after `save(name)` has run once, running `save(name)` again (or
`save()` with `folder_name` already equal to that name) creates no new
directory and does not fail, and leaves `folder_name` and `fullfilepath`
exactly as the first call set them. -/
theorem save_folder_idempotent (m : NeuralNetMaster) (fs : FS) (rn1 rn2 nm : String)
    (name2 : Option String) (mp1 mp2 : Bool)
    (render1 render2 : String → Except String (List String))
    (c1 c2 l1 l2 : FilesMap → FilesMap)
    (h : name2 = some nm ∨ name2 = none) :
    ((m.save fs rn1 (some nm) mp1 render1 c1 l1).1.save
        (m.save fs rn1 (some nm) mp1 render1 c1 l1).2.1 rn2 name2 mp2 render2 c2
        l2).2.1.dirs
      = (m.save fs rn1 (some nm) mp1 render1 c1 l1).2.1.dirs ∧
    ((m.save fs rn1 (some nm) mp1 render1 c1 l1).1.save
        (m.save fs rn1 (some nm) mp1 render1 c1 l1).2.1 rn2 name2 mp2 render2 c2
        l2).1.folder_name
      = (m.save fs rn1 (some nm) mp1 render1 c1 l1).1.folder_name ∧
    ((m.save fs rn1 (some nm) mp1 render1 c1 l1).1.save
        (m.save fs rn1 (some nm) mp1 render1 c1 l1).2.1 rn2 name2 mp2 render2 c2
        l2).1.fullfilepath
      = (m.save fs rn1 (some nm) mp1 render1 c1 l1).1.fullfilepath := by
  have hstate := save_state_eq m fs rn1 (some nm) mp1 render1 c1 l1
  have hfs := saveFolderStep_some m fs rn1 nm
  have hfold : (m.save fs rn1 (some nm) mp1 render1 c1 l1).1.folder_name = some nm := by
    rw [hstate, hfs]
  have hcd : (m.save fs rn1 (some nm) mp1 render1 c1 l1).1.currentdir = m.currentdir := by
    rw [hstate, hfs]
  have hfull : (m.save fs rn1 (some nm) mp1 render1 c1 l1).1.fullfilepath
      = some (pathJoin m.currentdir (pyOptStr (some nm) ++ "/")) := by
    rw [hstate, hfs]
  have hdirs : (m.save fs rn1 (some nm) mp1 render1 c1 l1).2.1.dirs
      = (ensureDir fs (pathJoin m.currentdir nm)).dirs := by
    rw [save_dirs, hfs]
  have hex : (m.save fs rn1 (some nm) mp1 render1 c1 l1).2.1.dirs
      (pathJoin m.currentdir nm) = true := by
    rw [hdirs]
    exact ensureDir_dirs_self fs _
  have hstep : ∃ X : NeuralNetMaster,
      saveFolderStep (m.save fs rn1 (some nm) mp1 render1 c1 l1).1
          (m.save fs rn1 (some nm) mp1 render1 c1 l1).2.1 rn2 name2
        = (X, (m.save fs rn1 (some nm) mp1 render1 c1 l1).2.1) ∧
      X.folder_name = some nm ∧ X.currentdir = m.currentdir := by
    have hpath : pathJoin (m.save fs rn1 (some nm) mp1 render1 c1 l1).1.currentdir nm
        = pathJoin m.currentdir nm := by rw [hcd]
    rcases h with h2 | h2 <;> subst h2
    · refine ⟨{ (m.save fs rn1 (some nm) mp1 render1 c1 l1).1 with
        folder_name := some nm }, ?_, rfl, hcd⟩
      rw [saveFolderStep_some, hpath, ensureDir_already _ _ hex]
    · refine ⟨(m.save fs rn1 (some nm) mp1 render1 c1 l1).1, ?_, hfold, hcd⟩
      rw [saveFolderStep_none _ _ _ nm hfold, hpath, ensureDir_already _ _ hex]
  obtain ⟨X, hs2, hXf, hXc⟩ := hstep
  refine ⟨?_, ?_, ?_⟩
  · rw [save_dirs, hs2]
  · rw [save_state_eq, hs2]
    dsimp only
    rw [hXf, hfold]
  · rw [save_state_eq, hs2]
    dsimp only
    rw [hXf, hXc, hfull]

/-- Witness for `save_folder_idempotent`: saving twice under the name
`runA` on an initially empty file system. -/
theorem save_folder_idempotent_witness :
    ((some "runA" = some "runA" ∨ (some "runA" : Option String) = none)) ∧
    (((baseState.save emptyFS "r1" (some "runA") false okRender id id).1.save
        (baseState.save emptyFS "r1" (some "runA") false okRender id id).2.1 "r2"
        (some "runA") true failRender id id).2.1.dirs
      = (baseState.save emptyFS "r1" (some "runA") false okRender id id).2.1.dirs ∧
     ((baseState.save emptyFS "r1" (some "runA") false okRender id id).1.save
        (baseState.save emptyFS "r1" (some "runA") false okRender id id).2.1 "r2"
        (some "runA") true failRender id id).1.folder_name
      = (baseState.save emptyFS "r1" (some "runA") false okRender id id).1.folder_name ∧
     ((baseState.save emptyFS "r1" (some "runA") false okRender id id).1.save
        (baseState.save emptyFS "r1" (some "runA") false okRender id id).2.1 "r2"
        (some "runA") true failRender id id).1.fullfilepath
      = (baseState.save emptyFS "r1" (some "runA") false okRender id id).1.fullfilepath) :=
  ⟨Or.inl rfl,
   save_folder_idempotent baseState emptyFS "r1" "r2" "runA" (some "runA") false true
     okRender failRender id id id id (Or.inl rfl)⟩

/-- Appending different suffixes to one prefix gives different strings. -/
theorem append_ne_of_data_ne (p a b : String) (h : a.data ≠ b.data) :
    p ++ a ≠ p ++ b := by
  intro hc
  apply h
  have h2 : (p ++ a).data = (p ++ b).data := congrArg String.data hc
  simp only [String.data_append] at h2
  exact List.append_cancel_left h2

/-- `plot_model` leaves every file other than its own image target alone. -/
theorem plot_model_files_ne (m : NeuralNetMaster) (fs : FS)
    (render : String → Except String (List String)) (q : String)
    (hq : q ≠ (match m.fullfilepath with | some p => p | none => "") ++ "model.png") :
    (m.plot_model fs render).1.files q = fs.files q := by
  unfold NeuralNetMaster.plot_model
  dsimp only
  split
  · dsimp only [writeFile]
    rw [if_neg hq]
  · rfl

/-- The pipeline after the folder step always leaves `hyperparameter.txt`
in place with the rendered configuration, whatever the plotting outcome and
whatever extra files the hooks add. -/
theorem savePipeline_files_hyper (m2 : NeuralNetMaster) (fs1 : FS) (mp : Bool)
    (render : String → Except String (List String))
    (childF loggerF : FilesMap → FilesMap) (P : String)
    (hfp : m2.fullfilepath = some P)
    (hc : ∀ (g : FilesMap) (q : String), g q ≠ none → childF g q = g q)
    (hl : ∀ (g : FilesMap) (q : String), g q ≠ none → loggerF g q = g q) :
    (savePipeline m2 fs1 mp render childF loggerF).1.files
        (pyOptStr m2.fullfilepath ++ "hyperparameter.txt") = some (hyperLines m2) := by
  unfold savePipeline
  dsimp only
  apply applyHooks_files _ _ _ _ _ _ _ hc hl
  rw [hfp]
  dsimp only [pyOptStr]
  have hW : (writeFile fs1 (P ++ "hyperparameter.txt") (hyperLines m2)).files
      (P ++ "hyperparameter.txt") = some (hyperLines m2) := by
    dsimp only [writeFile]
    rw [if_pos rfl]
  cases mp
  · simpa [hfp, pyOptStr] using hW
  · simp only [if_true]
    rw [plot_model_files_ne]
    · simpa [hfp, pyOptStr] using hW
    · rw [hfp]
      exact append_ne_of_data_ne P _ _ (by decide)

/-- After the folder step, `folder_name` always holds a name and
`currentdir` is untouched. -/
theorem saveFolderStep_folder (m : NeuralNetMaster) (fs : FS) (rn : String)
    (name : Option String) :
    ∃ f : String, (saveFolderStep m fs rn name).1.folder_name = some f ∧
      (saveFolderStep m fs rn name).1.currentdir = m.currentdir := by
  unfold saveFolderStep
  rcases name with _ | nm
  · rcases Option.eq_none_or_eq_some m.folder_name with hfn | ⟨f, hfn⟩
    · rw [if_pos ⟨hfn, rfl⟩]
      exact ⟨rn, rfl, rfl⟩
    · rw [if_neg (by simp [hfn])]
      dsimp only
      rw [hfn]
      exact ⟨f, hfn, rfl⟩
  · rw [if_neg (by simp)]
    exact ⟨nm, rfl, rfl⟩

/-- Claim C8: every call to `save` writes the plain-text summary file
`hyperparameter.txt` into the run-specific folder
(`currentdir` joined with `folder_name`), holding the rendered
configuration fields — given that the subclass checklist hook and the
virtual logger only add files of their own. -/
theorem save_writes_hyperparameter_file (m : NeuralNetMaster) (fs : FS) (rn : String)
    (name : Option String) (mp : Bool) (render : String → Except String (List String))
    (childF loggerF : FilesMap → FilesMap)
    (hc : ∀ (g : FilesMap) (q : String), g q ≠ none → childF g q = g q)
    (hl : ∀ (g : FilesMap) (q : String), g q ≠ none → loggerF g q = g q) :
    ∃ f : String, (m.save fs rn name mp render childF loggerF).1.folder_name = some f ∧
      (m.save fs rn name mp render childF loggerF).2.1.files
          (pathJoin m.currentdir (f ++ "/") ++ "hyperparameter.txt")
        = some (hyperLines (m.save fs rn name mp render childF loggerF).1) := by
  obtain ⟨f, hf, hcd⟩ := saveFolderStep_folder m fs rn name
  refine ⟨f, ?_, ?_⟩
  · rw [save_state_eq]
    exact hf
  · have hfull : (m.save fs rn name mp render childF loggerF).1.fullfilepath
        = some (pathJoin m.currentdir (f ++ "/")) := by
      rw [save_state_eq]
      dsimp only
      rw [hf, hcd]
      rfl
    have hmain := savePipeline_files_hyper
      (m.save fs rn name mp render childF loggerF).1 (saveFolderStep m fs rn name).2 mp
      render childF loggerF (pathJoin m.currentdir (f ++ "/")) hfull hc hl
    rw [hfull] at hmain
    dsimp only [pyOptStr] at hmain
    exact hmain

/-- Witness for `save_writes_hyperparameter_file`: saving under the name
`myrun` on an empty file system with plotting enabled and identity hooks. -/
theorem save_writes_hyperparameter_file_witness :
    (∀ (g : FilesMap) (q : String), g q ≠ none → id g q = g q) ∧
    ∃ f : String,
      (baseState.save emptyFS "RUN" (some "myrun") true okRender id id).1.folder_name
        = some f ∧
      (baseState.save emptyFS "RUN" (some "myrun") true okRender id id).2.1.files
          (pathJoin baseState.currentdir (f ++ "/") ++ "hyperparameter.txt")
        = some (hyperLines
            (baseState.save emptyFS "RUN" (some "myrun") true okRender id id).1) :=
  ⟨fun _ _ _ => rfl,
   save_writes_hyperparameter_file baseState emptyFS "RUN" (some "myrun") true okRender
     id id (fun _ _ _ => rfl) (fun _ _ _ => rfl)⟩

/-- When the renderer always raises, the pipeline with plotting enabled
produces the same file system as with plotting disabled, and logs the
warning. -/
theorem savePipeline_render_fail (m2 : NeuralNetMaster) (fs1 : FS) (err : String)
    (render : String → Except String (List String))
    (childF loggerF : FilesMap → FilesMap)
    (hr : ∀ t, render t = .error err) :
    savePipeline m2 fs1 true render childF loggerF
      = ((savePipeline m2 fs1 false render childF loggerF).1, [plotWarning]) := by
  unfold savePipeline NeuralNetMaster.plot_model
  dsimp only
  rw [hr]
  rfl

/-- Claim C7: an exception raised by the external diagram renderer inside
`plot_model` is caught and reduced to a console warning, and the caller
(`save`) continues normally past the plotting step: with a renderer that
always raises, `save(..., model_plot=True)` returns exactly the state and
file system of the same call with plotting disabled, with the warning as
its only console output. -/
theorem plot_failure_warning_continues (m : NeuralNetMaster) (fs : FS) (rn : String)
    (name : Option String) (err : String)
    (render : String → Except String (List String))
    (childF loggerF : FilesMap → FilesMap)
    (hr : ∀ t, render t = .error err) :
    (m.save fs rn name true render childF loggerF).1
      = (m.save fs rn name false render childF loggerF).1 ∧
    (m.save fs rn name true render childF loggerF).2.1
      = (m.save fs rn name false render childF loggerF).2.1 ∧
    (m.save fs rn name true render childF loggerF).2.2 = [plotWarning] ∧
    (m.save fs rn name false render childF loggerF).2.2 = ([] : List String) := by
  have hp := savePipeline_render_fail ((m.save fs rn name true render childF loggerF).1)
    (saveFolderStep m fs rn name).2 err render childF loggerF hr
  refine ⟨rfl, ?_, ?_, rfl⟩
  · show (savePipeline ((m.save fs rn name true render childF loggerF).1)
        (saveFolderStep m fs rn name).2 true render childF loggerF).1
      = (m.save fs rn name false render childF loggerF).2.1
    rw [hp]
    rfl
  · show (savePipeline ((m.save fs rn name true render childF loggerF).1)
        (saveFolderStep m fs rn name).2 true render childF loggerF).2 = [plotWarning]
    rw [hp]

/-- Witness for `plot_failure_warning_continues`: the always-failing
renderer on a concrete save call. -/
theorem plot_failure_warning_continues_witness :
    (∀ t, failRender t = .error "graphviz missing") ∧
    ((baseState.save emptyFS "R" (some "runB") true failRender id id).1
      = (baseState.save emptyFS "R" (some "runB") false failRender id id).1 ∧
    (baseState.save emptyFS "R" (some "runB") true failRender id id).2.1
      = (baseState.save emptyFS "R" (some "runB") false failRender id id).2.1 ∧
    (baseState.save emptyFS "R" (some "runB") true failRender id id).2.2 = [plotWarning] ∧
    (baseState.save emptyFS "R" (some "runB") false failRender id id).2.2
      = ([] : List String)) :=
  ⟨fun _ => rfl,
   plot_failure_warning_continues baseState emptyFS "R" (some "runB") "graphviz missing"
     failRender id id (fun _ => rfl)⟩
